import Mathlib

/-!
Shallow embedding of the cloudscan-orchestrator scan lifecycle engine.

The Go sources embedded here:
* `internal/domain` — scan / finding data model (statuses, types, severities);
* `internal/database/scan_repository.go` — `ScanRepository` (Create, Get,
  Update, List, Delete, UpdateStatus) over a relational store, modelled as a
  list of scan rows plus a list of finding rows;
* the full `FindingRepository` variant (`CreateBatch`, `DeleteByScanID`);
* `internal/grpc/service.go` — the request handlers `CreateScan`, `ListScans`,
  `CancelScan`, `CreateFindings`, `DeleteScan`;
* `internal/workers/dispatcher.go` — dispatcher and cleaner loops;
* the sweeper worker (`sweep`, `processScan`).

Modelling conventions: machine time is an abstract integer timeline (for the
cleaner's retention arithmetic one unit stands for one day, matching
`AddDate(0, 0, -retentionDays)`); UUIDs are opaque strings, with `uuid.Parse`
passed in explicitly as a `String → Option UUID` function; external
collaborators (Kubernetes job dispatcher, storage service) appear as explicit
oracles; database statement execution is a success/failure flag where a claim
depends on it, and each SQL statement is translated clause by clause.
-/

set_option autoImplicit false

namespace CloudScan

/-- Opaque UUID handle (the Go code treats them as opaque identifiers). -/
abbrev UUID := String

/-- Abstract integer timeline standing in for `time.Time`. -/
abbrev Time := Int

/-- `domain.ScanStatus` — the five scan states. -/
inductive ScanStatus
  | queued
  | running
  | completed
  | failed
  | cancelled
deriving DecidableEq, Repr

/-- `Scan.IsTerminal` from `internal/domain`: completed, failed or cancelled. -/
def ScanStatus.isTerminal : ScanStatus → Bool
  | .completed => true
  | .failed => true
  | .cancelled => true
  | _ => false

/-- `domain.ScanType`; `invalid` stands for the empty-string `ScanType("")`
that `convertScanTypeFromProto` produces on an unrecognised proto value. -/
inductive ScanType
  | sast
  | sca
  | secrets
  | license
  | invalid
deriving DecidableEq, Repr

/-- `domain.Severity`; `invalid` stands for the empty-string `Severity("")`. -/
inductive Severity
  | critical
  | high
  | medium
  | low
  | info
  | invalid
deriving DecidableEq, Repr

/-- `domain.Scan` — one scan row, with the columns the embedded SQL touches.
Nullable columns are `Option`s. -/
structure Scan where
  id : UUID
  organizationId : UUID
  projectId : UUID
  userId : Option UUID
  status : ScanStatus
  scanTypes : List ScanType
  repositoryURL : Option String
  branch : Option String
  commitSHA : Option String
  sourceArchiveKey : Option String
  jobName : Option String
  jobNamespace : Option String
  findingsCount : Int
  criticalCount : Int
  highCount : Int
  mediumCount : Int
  lowCount : Int
  startedAt : Option Time
  completedAt : Option Time
  errorMessage : Option String
  createdAt : Time
  updatedAt : Time
deriving DecidableEq, Repr

/-- One finding row, with exactly the columns the batch INSERT of
`FindingRepository.CreateBatch` populates. -/
structure Finding where
  id : UUID
  scanId : UUID
  scanType : ScanType
  toolName : String
  title : String
  description : String
  severity : Severity
  filePath : String
  startLine : Int
  codeSnippet : String
  cweId : String
  cveId : String
  createdAt : Time
deriving DecidableEq, Repr

/-- The relational store: the `scans` and `findings` tables. -/
structure Store where
  scans : List Scan
  findings : List Finding
deriving DecidableEq, Repr

/-- Repository-level failures surfaced by the embedded SQL operations. -/
inductive RepoError
  | notFound
  | conflict
  | execFailed
deriving DecidableEq, Repr

/-- `interfaces.ScanFilter` — filter criteria accepted by `ScanRepository.List`. -/
structure ScanFilter where
  organizationId : Option UUID := none
  projectId : Option UUID := none
  userId : Option UUID := none
  status : Option ScanStatus := none
  scanTypes : List ScanType := []
  createdBefore : Option Time := none
  limit : Int := 0
  offset : Int := 0
  pageSize : Int := 0
deriving Repr

/-- The WHERE clauses `ScanRepository.List` actually appends: organization,
project, user and status. As in the source, `CreatedBefore`, `ScanTypes` and
`PageSize` are never consulted. -/
def scanMatches (f : ScanFilter) (s : Scan) : Bool :=
  (match f.organizationId with
    | none => true
    | some o => s.organizationId == o)
  && (match f.projectId with
    | none => true
    | some p => s.projectId == p)
  && (match f.userId with
    | none => true
    | some u => s.userId == some u)
  && (match f.status with
    | none => true
    | some st => s.status == st)

/-- `ORDER BY created_at DESC` — newest first. -/
def createdDesc (a b : Scan) : Prop := b.createdAt ≤ a.createdAt

instance : DecidableRel createdDesc :=
  fun a b => inferInstanceAs (Decidable (b.createdAt ≤ a.createdAt))

instance : IsTotal Scan createdDesc :=
  ⟨fun a b => le_total b.createdAt a.createdAt⟩

instance : IsTrans Scan createdDesc :=
  ⟨fun _ _ _ h1 h2 => le_trans h2 h1⟩

/-- Rows sorted newest-first by creation time. -/
def sortByCreatedDesc (l : List Scan) : List Scan :=
  List.insertionSort createdDesc l

namespace ScanRepository

/-- `ScanRepository.Create`: INSERT of a new scan row; a primary-key
collision is a database error. -/
def create (scan : Scan) (st : Store) : Except RepoError Store :=
  if st.scans.any (fun r => r.id == scan.id) then
    .error .conflict
  else
    .ok { st with scans := st.scans ++ [scan] }

/-- `ScanRepository.Get`: SELECT by primary key. -/
def get (id : UUID) (st : Store) : Option Scan :=
  st.scans.find? (fun r => r.id == id)

/-- The SET list of `ScanRepository.Update`'s UPDATE statement: status,
job_name, the five counters, started_at, completed_at, error_message and
updated_at. `job_namespace` is not among the updated columns (and neither are
the identity or request columns). -/
def applyScanUpdate (now : Time) (scan : Scan) (row : Scan) : Scan :=
  { row with
    status := scan.status
    jobName := scan.jobName
    findingsCount := scan.findingsCount
    criticalCount := scan.criticalCount
    highCount := scan.highCount
    mediumCount := scan.mediumCount
    lowCount := scan.lowCount
    startedAt := scan.startedAt
    completedAt := scan.completedAt
    errorMessage := scan.errorMessage
    updatedAt := now }

/-- `ScanRepository.Update`: UPDATE ... WHERE id; zero rows affected is
"scan not found". -/
def update (now : Time) (scan : Scan) (st : Store) : Except RepoError Store :=
  if st.scans.any (fun r => r.id == scan.id) then
    .ok { st with
      scans := st.scans.map (fun r =>
        if r.id == scan.id then applyScanUpdate now scan r else r) }
  else
    .error .notFound

/-- `ScanRepository.List`: the WHERE clauses of `scanMatches`, then
`ORDER BY created_at DESC`, then (SQL semantics) OFFSET before LIMIT, each
only when positive. -/
def list (f : ScanFilter) (st : Store) : List Scan :=
  let rows := sortByCreatedDesc (st.scans.filter (scanMatches f))
  let rows := if 0 < f.offset then rows.drop f.offset.toNat else rows
  if 0 < f.limit then rows.take f.limit.toNat else rows

/-- `ScanRepository.Delete` — a soft delete: UPDATE scans SET
status = cancelled, updated_at = now WHERE id. The row is kept. -/
def delete (now : Time) (id : UUID) (st : Store) : Except RepoError Store :=
  if st.scans.any (fun r => r.id == id) then
    .ok { st with
      scans := st.scans.map (fun r =>
        if r.id == id then { r with status := .cancelled, updatedAt := now } else r) }
  else
    .error .notFound

/-- `ScanRepository.UpdateStatus`: UPDATE scans SET status, updated_at
WHERE id. -/
def updateStatus (now : Time) (id : UUID) (status : ScanStatus) (st : Store) :
    Except RepoError Store :=
  if st.scans.any (fun r => r.id == id) then
    .ok { st with
      scans := st.scans.map (fun r =>
        if r.id == id then { r with status := status, updatedAt := now } else r) }
  else
    .error .notFound

end ScanRepository

namespace FindingRepository

/-- `FindingRepository.CreateBatch` (full variant): a zero-length batch
returns immediately; otherwise one bulk INSERT carrying every row (with
`created_at = now`) executes as a single statement — `dbOk` is its outcome,
so it either inserts the whole batch or nothing. -/
def createBatch (now : Time) (dbOk : Bool) (findings : List Finding) (st : Store) :
    Except RepoError Store :=
  if findings.length == 0 then
    .ok st
  else if dbOk then
    .ok { st with
      findings := st.findings ++ findings.map (fun f => { f with createdAt := now }) }
  else
    .error .execFailed

/-- `FindingRepository.DeleteByScanID`: DELETE FROM findings WHERE scan_id. -/
def deleteByScanId (scanId : UUID) (st : Store) : Store :=
  { st with findings := st.findings.filter (fun f => !(f.scanId == scanId)) }

end FindingRepository

/-! ### gRPC surface: proto enums, messages, conversions and handlers -/

/-- gRPC status codes the service emits, with the attached message. -/
inductive GrpcError
  | invalidArgument (msg : String)
  | notFound (msg : String)
  | failedPrecondition (msg : String)
  | internal (msg : String)
deriving DecidableEq, Repr

/-- `pb.ScanStatus`. -/
inductive PbScanStatus
  | unspecified
  | queued
  | running
  | completed
  | failed
  | cancelled
deriving DecidableEq, Repr

/-- `pb.ScanType`. -/
inductive PbScanType
  | unspecified
  | sast
  | sca
  | secrets
  | license
deriving DecidableEq, Repr

/-- `pb.Severity`. -/
inductive PbSeverity
  | unspecified
  | critical
  | high
  | medium
  | low
deriving DecidableEq, Repr

/-- `convertScanStatusFromProto`; the default branch of the Go switch yields
the invalid status `""`, which the handlers never store — modelled as `none`. -/
def convertScanStatusFromProto : PbScanStatus → Option ScanStatus
  | .queued => some .queued
  | .running => some .running
  | .completed => some .completed
  | .failed => some .failed
  | .cancelled => some .cancelled
  | .unspecified => none

/-- `convertScanTypeFromProto`; the default branch yields `ScanType("")`. -/
def convertScanTypeFromProto : PbScanType → ScanType
  | .sast => .sast
  | .sca => .sca
  | .secrets => .secrets
  | .license => .license
  | .unspecified => .invalid

/-- `convertSeverityFromProto`; the default branch yields `Severity("")`. -/
def convertSeverityFromProto : PbSeverity → Severity
  | .critical => .critical
  | .high => .high
  | .medium => .medium
  | .low => .low
  | .unspecified => .invalid

/-- `deriveToolName`: default scanner per scan type. -/
def deriveToolName : ScanType → String
  | .sast => "semgrep"
  | .sca => "trivy"
  | .secrets => "gitleaks"
  | .license => "trivy"
  | .invalid => "unknown"

/-- `stringPtr`: empty string becomes a NULL column. -/
def stringPtr (s : String) : Option String :=
  if s == "" then none else some s

/-- `stringValue`: NULL column read back as the empty string. -/
def stringValue : Option String → String
  | none => ""
  | some s => s

/-- `pb.CreateScanRequest`. -/
structure CreateScanRequest where
  organizationId : String
  projectId : String
  userId : String
  scanTypes : List PbScanType
  gitUrl : String
  gitBranch : String
  gitCommit : String
  sourceArtifactId : String
deriving Repr

/-- `pb.ListScansRequest`. -/
structure ListScansRequest where
  organizationId : String
  projectId : String
  status : PbScanStatus
  pageSize : Int
deriving Repr

/-- `pb.CancelScanRequest`. -/
structure CancelScanRequest where
  id : String
deriving Repr

/-- `pb.DeleteScanRequest`. -/
structure DeleteScanRequest where
  id : String
deriving Repr

/-- `pb.Finding` — the request-side fields `convertFindingFromProto` reads. -/
structure PbFinding where
  scanType : PbScanType
  severity : PbSeverity
  title : String
  description : String
  filePath : String
  lineNumber : Int
  codeSnippet : String
  cveId : String
  cweId : String
deriving Repr

/-- `pb.CreateFindingsRequest`. -/
structure CreateFindingsRequest where
  scanId : String
  findings : List PbFinding
deriving Repr

/-- `convertFindingFromProto`: fresh id, scan reference, tool name derived
from the scan type; `CreatedAt` is filled in by the batch INSERT. -/
def convertFindingFromProto (newId : UUID) (scanId : UUID) (pf : PbFinding) : Finding :=
  let st := convertScanTypeFromProto pf.scanType
  { id := newId
    scanId := scanId
    scanType := st
    toolName := deriveToolName st
    severity := convertSeverityFromProto pf.severity
    title := pf.title
    description := pf.description
    filePath := pf.filePath
    startLine := pf.lineNumber
    codeSnippet := pf.codeSnippet
    cweId := pf.cweId
    cveId := pf.cveId
    createdAt := 0 }

namespace ScanServiceServer

/-- The scan record `CreateScan` constructs: fresh id, parsed references,
status queued, the converted scan types, NULLed empty strings, zero counters
and both audit timestamps at now. -/
def newScanOf (newId : UUID) (now : Time) (req : CreateScanRequest)
    (orgId projId : UUID) (userId : Option UUID) : Scan :=
  { id := newId
    organizationId := orgId
    projectId := projId
    userId := userId
    status := .queued
    scanTypes := req.scanTypes.map convertScanTypeFromProto
    repositoryURL := stringPtr req.gitUrl
    branch := stringPtr req.gitBranch
    commitSHA := stringPtr req.gitCommit
    sourceArchiveKey := stringPtr req.sourceArtifactId
    jobName := none
    jobNamespace := none
    findingsCount := 0
    criticalCount := 0
    highCount := 0
    mediumCount := 0
    lowCount := 0
    startedAt := none
    completedAt := none
    errorMessage := none
    createdAt := now
    updatedAt := now }

/-- `ScanServiceServer.CreateScan`: the four validations in source order, the
UUID parses, then construction of a queued scan and one repository insert. -/
def createScan (parse : String → Option UUID) (newId : UUID) (now : Time)
    (req : CreateScanRequest) (st : Store) : Except GrpcError (Store × Scan) :=
  if req.organizationId == "" then
    .error (.invalidArgument "organization_id is required")
  else if req.projectId == "" then
    .error (.invalidArgument "project_id is required")
  else if req.scanTypes.length == 0 then
    .error (.invalidArgument "at least one scan_type is required")
  else if req.gitUrl == "" && req.sourceArtifactId == "" then
    .error (.invalidArgument "either git_url or source_artifact_id is required")
  else
    match parse req.organizationId with
    | none => .error (.invalidArgument "invalid organization_id")
    | some orgId =>
      match parse req.projectId with
      | none => .error (.invalidArgument "invalid project_id")
      | some projectId =>
        let userStep : Except GrpcError (Option UUID) :=
          if req.userId == "" then .ok none
          else
            match parse req.userId with
            | none => .error (.invalidArgument "invalid user_id")
            | some u => .ok (some u)
        match userStep with
        | .error e => .error e
        | .ok userId =>
          let scan : Scan := newScanOf newId now req orgId projectId userId
          match ScanRepository.create scan st with
          | .error _ => .error (.internal "failed to create scan")
          | .ok st2 => .ok (st2, scan)

/-- The filter `ScanServiceServer.ListScans` builds: `PageSize` from the
request, then organization, project and status when present. -/
def listScansFilter (parse : String → Option UUID) (req : ListScansRequest) :
    Except GrpcError ScanFilter :=
  let f0 : ScanFilter := { pageSize := req.pageSize }
  let orgStep : Except GrpcError ScanFilter :=
    if req.organizationId == "" then .ok f0
    else
      match parse req.organizationId with
      | none => .error (.invalidArgument "invalid organization_id")
      | some o => .ok { f0 with organizationId := some o }
  match orgStep with
  | .error e => .error e
  | .ok f1 =>
    let projStep : Except GrpcError ScanFilter :=
      if req.projectId == "" then .ok f1
      else
        match parse req.projectId with
        | none => .error (.invalidArgument "invalid project_id")
        | some p => .ok { f1 with projectId := some p }
    match projStep with
    | .error e => .error e
    | .ok f2 =>
      if req.status == PbScanStatus.unspecified then .ok f2
      else .ok { f2 with status := convertScanStatusFromProto req.status }

/-- `ScanServiceServer.ListScans`: build the filter, query the repository. -/
def listScans (parse : String → Option UUID) (req : ListScansRequest) (st : Store) :
    Except GrpcError (List Scan) :=
  match listScansFilter parse req with
  | .error e => .error e
  | .ok f => .ok (ScanRepository.list f st)

/-- Result of `CancelScan`: the store afterwards plus the
(namespace, name) pairs for which `CancelJob` was invoked. -/
structure CancelOutcome where
  store : Store
  cancelCalls : List (String × String)
deriving DecidableEq, Repr

/-- `ScanServiceServer.CancelScan`. `cancelJobOk` is the outcome of the
`CancelJob` call; a failure is logged and ignored, so it never affects the
result. Completed/failed scans are refused, a cancelled scan is a no-op,
otherwise the job (if any) is cancelled best-effort and the status updated. -/
def cancelScan (parse : String → Option UUID) (now : Time) (cancelJobOk : Bool)
    (req : CancelScanRequest) (st : Store) : Except GrpcError CancelOutcome :=
  match parse req.id with
  | none => .error (.invalidArgument "invalid scan_id")
  | some scanId =>
    match ScanRepository.get scanId st with
    | none => .error (.notFound "scan not found")
    | some scan =>
      if scan.status == .completed || scan.status == .failed then
        .error (.failedPrecondition "scan already completed")
      else if scan.status == .cancelled then
        .ok { store := st, cancelCalls := [] }
      else
        let calls : List (String × String) :=
          match scan.jobName with
          | none => []
          | some name =>
            if name == "" then [] else [(stringValue scan.jobNamespace, name)]
        let _ := cancelJobOk
        match ScanRepository.updateStatus now scanId .cancelled st with
        | .error _ => .error (.internal "failed to cancel scan")
        | .ok st2 => .ok { store := st2, cancelCalls := calls }

/-- `ScanServiceServer.CreateFindings`: validate the scan id, check the scan
exists, convert each proto finding (fresh ids from `genId`), insert the batch
and report the count. -/
def createFindings (parse : String → Option UUID) (genId : Nat → UUID) (now : Time)
    (dbOk : Bool) (req : CreateFindingsRequest) (st : Store) :
    Except GrpcError (Store × Int) :=
  if req.scanId == "" then
    .error (.invalidArgument "scan_id is required")
  else
    match parse req.scanId with
    | none => .error (.invalidArgument "invalid scan_id")
    | some scanId =>
      match ScanRepository.get scanId st with
      | none => .error (.notFound "scan not found")
      | some _ =>
        let findings := req.findings.enum.map
          (fun p => convertFindingFromProto (genId p.1) scanId p.2)
        match FindingRepository.createBatch now dbOk findings st with
        | .error _ => .error (.internal "failed to create findings")
        | .ok st2 => .ok (st2, findings.length)

/-- `ScanServiceServer.DeleteScan`: look the scan up, delete the Kubernetes
job and the artifacts best-effort (`deleteJobOk` and `deleteArtifactsOk` are
those outcomes, logged and ignored), then delete the findings and finally the
scan row via the repository's `Delete`. -/
def deleteScan (parse : String → Option UUID) (now : Time)
    (deleteJobOk deleteArtifactsOk : Bool) (req : DeleteScanRequest) (st : Store) :
    Except GrpcError Store :=
  match parse req.id with
  | none => .error (.invalidArgument "invalid scan_id")
  | some scanId =>
    match ScanRepository.get scanId st with
    | none => .error (.notFound "scan not found")
    | some scan =>
      let _ := deleteJobOk
      let _ := deleteArtifactsOk
      let st2 := FindingRepository.deleteByScanId scan.id st
      match ScanRepository.delete now scan.id st2 with
      | .error _ => .error (.internal "failed to delete scan")
      | .ok st3 => .ok st3

end ScanServiceServer

/-! ### Background workers: dispatcher, sweeper, cleaner -/

namespace Dispatcher

/-- The scans a dispatch tick iterates over: `List` with the queued-status
filter, in the order the repository returns them. -/
def dispatchOrder (st : Store) : List Scan :=
  ScanRepository.list { status := some .queued } st

/-- `Dispatcher.dispatchScan`: `createJob` is the Kubernetes `CreateJob`
call, returning the job's (name, namespace) or an error string. On failure
the scan is marked failed with the error text; on success it gets the job
name and namespace, status running and `started-at = now`; either way the
record is written back through `Update` (whose own failure is only logged). -/
def dispatchScan (now : Time) (createJob : Scan → Except String (String × String))
    (scan : Scan) (st : Store) : Store :=
  match createJob scan with
  | .error msg =>
    let failed := { scan with status := ScanStatus.failed, errorMessage := some msg }
    match ScanRepository.update now failed st with
    | .ok st2 => st2
    | .error _ => st
  | .ok (name, namespaceName) =>
    let updated := { scan with
      jobName := some name
      jobNamespace := some namespaceName
      status := ScanStatus.running
      startedAt := some now }
    match ScanRepository.update now updated st with
    | .ok st2 => st2
    | .error _ => st

/-- `Dispatcher.dispatch`: one tick — list the queued scans, dispatch each in
list order. -/
def dispatch (now : Time) (createJob : Scan → Except String (String × String))
    (st : Store) : Store :=
  (dispatchOrder st).foldl (fun acc scan => dispatchScan now createJob scan acc) st

end Dispatcher

/-- One entry of the Kubernetes job's condition list. -/
structure JobCondition where
  type : String
  status : String
  reason : String
  message : String
deriving DecidableEq, Repr

/-- The job status shape: pod counts plus conditions. -/
structure JobStatus where
  active : Int
  succeeded : Int
  failed : Int
  conditions : List JobCondition
deriving DecidableEq, Repr

namespace Sweeper

/-- The condition scan of the failed branch: the first condition with type
`Failed` and status `True` supplies the message, or its reason when the
message is empty. -/
def firstFailedMessage : List JobCondition → Option String
  | [] => none
  | c :: cs =>
    if c.type == "Failed" && c.status == "True" then
      some (if c.message == "" then c.reason else c.message)
    else firstFailedMessage cs

/-- The log fallback: logs longer than 500 characters are truncated to their
last 500 characters behind a `...` marker; shorter logs are used whole. -/
def logTail (logs : String) : String :=
  if 500 < logs.length then "..." ++ (logs.drop (logs.length - 500)) else logs

/-- The failed branch's error-text derivation: the first Failed/True
condition's message (or reason), else the fetched logs (tail-truncated; an
empty or failed fetch falls back to the default string). -/
def failedErrorText (conds : List JobCondition) (logsResult : Option String) : String :=
  match firstFailedMessage conds with
  | some m => m
  | none =>
    match logsResult with
    | some logs =>
      if logs == "" then "Job failed with unknown error" else logTail logs
    | none => "Job failed with unknown error"

/-- `Sweeper.processScan` as a per-scan decision: given the fetched job
status (`none` when the fetch failed) and the log fetch outcome (`none` when
it failed), either no write happens (`none`) or the scan is rewritten as
returned. Skips scans with no job name. -/
def processScan (now : Time) (jobStatus : Option JobStatus)
    (logsResult : Option String) (scan : Scan) : Option Scan :=
  if stringValue scan.jobName == "" then
    none
  else
    match jobStatus with
    | none => none
    | some js =>
      if 0 < js.succeeded then
        some { scan with status := ScanStatus.completed, completedAt := some now }
      else if 0 < js.failed then
        some { scan with
          status := ScanStatus.failed
          errorMessage := some (failedErrorText js.conditions logsResult)
          completedAt := some now }
      else if 0 < js.active then
        if scan.status == ScanStatus.running then none
        else some { scan with status := ScanStatus.running }
      else
        none

/-- One step of the sweep loop body: apply `processScan` and, when it
produced an update, write it back (a write failure is logged and skipped). -/
def stepScan (now : Time) (getJobStatus : Scan → Option JobStatus)
    (getLogs : Scan → Option String) (st : Store) (scan : Scan) : Store :=
  match processScan now (getJobStatus scan) (getLogs scan) scan with
  | none => st
  | some scan2 =>
    match ScanRepository.update now scan2 st with
    | .ok st2 => st2
    | .error _ => st

/-- `Sweeper.sweep`: list the queued scans then the running scans (from the
tick's initial store), and process each in order against the evolving store. -/
def sweep (now : Time) (getJobStatus : Scan → Option JobStatus)
    (getLogs : Scan → Option String) (st : Store) : Store :=
  let queuedScans := ScanRepository.list { status := some ScanStatus.queued } st
  let runningScans := ScanRepository.list { status := some ScanStatus.running } st
  (queuedScans ++ runningScans).foldl (stepScan now getJobStatus getLogs) st

end Sweeper

namespace Cleaner

/-- The selection step of `Cleaner.cleanup`: cutoff = now − retention (one
time unit per day), then one `List` query per terminal status with the
`CreatedBefore` watermark and that status, concatenated. -/
def selectScans (now : Time) (retentionDays : Int) (st : Store) : List Scan :=
  let cutoffDate := now - retentionDays
  let completedScans := ScanRepository.list
    { createdBefore := some cutoffDate, status := some ScanStatus.completed } st
  let failedScans := ScanRepository.list
    { createdBefore := some cutoffDate, status := some ScanStatus.failed } st
  let cancelledScans := ScanRepository.list
    { createdBefore := some cutoffDate, status := some ScanStatus.cancelled } st
  completedScans ++ failedScans ++ cancelledScans

/-- `Cleaner.cleanupScan`: job and artifact deletion are best-effort (their
outcomes are ignored), then findings are deleted and the scan row deleted via
the repository; a repository error aborts this scan's cleanup. -/
def cleanupScan (now : Time) (scan : Scan) (st : Store) : Except RepoError Store :=
  let st2 := FindingRepository.deleteByScanId scan.id st
  ScanRepository.delete now scan.id st2

/-- `Cleaner.cleanup`: one cycle — select, then clean each selected scan,
counting failures but continuing. -/
def cleanup (now : Time) (retentionDays : Int) (st : Store) : Store :=
  (selectScans now retentionDays st).foldl
    (fun acc scan =>
      match cleanupScan now scan acc with
      | .ok st2 => st2
      | .error _ => acc) st

end Cleaner

/-! ### Auxiliary notions and concrete fixtures used by the theorems -/

/-- The scan rows of a store carrying a given id (the subject of row-level
preservation statements). -/
def rowsWithId (i : UUID) (st : Store) : List Scan :=
  st.scans.filter (fun r => r.id == i)

/-- A concrete stand-in for `uuid.Parse` on the fixtures: every non-empty
string is accepted as an identifier. -/
def idParse : String → Option UUID :=
  fun s => if s == "" then none else some s

/-- A scan row with the given id, status and creation time and neutral
remaining fields. -/
def mkScan (id : UUID) (status : ScanStatus) (createdAt : Time) : Scan :=
  { id := id
    organizationId := "org-1"
    projectId := "proj-1"
    userId := none
    status := status
    scanTypes := [ScanType.sast]
    repositoryURL := some "https://example.test/repo"
    branch := none
    commitSHA := none
    sourceArchiveKey := none
    jobName := none
    jobNamespace := none
    findingsCount := 0
    criticalCount := 0
    highCount := 0
    mediumCount := 0
    lowCount := 0
    startedAt := none
    completedAt := none
    errorMessage := none
    createdAt := createdAt
    updatedAt := createdAt }

/-- A finding row attached to scan `s1`. -/
def finding1 : Finding :=
  { id := "f1"
    scanId := "s1"
    scanType := ScanType.sast
    toolName := "semgrep"
    severity := Severity.high
    title := "hardcoded credential"
    description := "d"
    filePath := "main.go"
    startLine := 3
    codeSnippet := ""
    cweId := "CWE-798"
    cveId := ""
    createdAt := 1 }

/-- Store for the delete scenario: one completed scan `s1` with one finding. -/
def deleteStore : Store :=
  { scans := [mkScan "s1" ScanStatus.completed 1], findings := [finding1] }

/-- Store for the retention scenario: a completed scan created at time 100
(well inside the retention window at now = 100) and an ancient queued scan. -/
def retentionStore : Store :=
  { scans := [mkScan "young" ScanStatus.completed 100, mkScan "ancient" ScanStatus.queued 0]
    findings := [] }

/-- Store for the terminal-transition scenario: one completed scan `s3`. -/
def terminalStore : Store :=
  { scans := [mkScan "s3" ScanStatus.completed 1], findings := [] }

/-- Queued scan awaiting dispatch, with no job fields set. -/
def queuedScan4 : Scan := mkScan "s4" ScanStatus.queued 1

/-- Store for the dispatch scenario. -/
def dispatchStore : Store := { scans := [queuedScan4], findings := [] }

/-- A `CreateJob` oracle that always succeeds with a fixed job name and
namespace. -/
def fixedCreateJob : Scan → Except String (String × String) :=
  fun _ => Except.ok ("scan-abcd1234", "cloudscan")

/-- Store for the ordering scenario: two queued scans, created at times 1
and 2. -/
def orderingStore : Store :=
  { scans := [mkScan "s5a" ScanStatus.queued 1, mkScan "s5b" ScanStatus.queued 2]
    findings := [] }

/-- Running scan with a job, for the sweeper and cancel scenarios. -/
def runningScan6 : Scan :=
  { mkScan "s6" ScanStatus.running 1 with
    jobName := some "scan-deadbeef"
    jobNamespace := some "cloudscan"
    startedAt := some 2 }

/-- A job status whose only Failed-type condition has status `False`: the
pods report one failure but the failure condition is not asserted. -/
def falseFailedJobStatus : JobStatus :=
  { active := 0
    succeeded := 0
    failed := 1
    conditions :=
      [{ type := "Failed", status := "False", reason := "DeadlineExceeded", message := "boom" }] }

/-- A job status with one succeeded pod. -/
def succeededJobStatus : JobStatus :=
  { active := 0, succeeded := 1, failed := 0, conditions := [] }

/-- Store for the cancel scenario: the running scan `s6`. -/
def cancelStore : Store := { scans := [runningScan6], findings := [] }

/-- Store for the finding-batch scenario: one running scan `s6`, no
findings. -/
def batchStore : Store := { scans := [runningScan6], findings := [] }

/-- A fresh-id generator for the finding conversion. -/
def seqId : Nat → UUID := fun n => "fid-" ++ toString n

/-- A well-formed `CreateScanRequest` fixture. -/
def validCreateReq : CreateScanRequest :=
  { organizationId := "org-1"
    projectId := "proj-1"
    userId := ""
    scanTypes := [PbScanType.sast, PbScanType.sca]
    gitUrl := "https://x/y"
    gitBranch := "main"
    gitCommit := ""
    sourceArtifactId := "" }

/-- A `ListScansRequest` fixture. -/
def listReq : ListScansRequest :=
  { organizationId := "org-1", projectId := "", status := PbScanStatus.unspecified, pageSize := 1 }

/-- A store with no rows. -/
def emptyStore : Store := { scans := [], findings := [] }

/-- A `CreateFindingsRequest` with an empty batch for the existing scan `s6`. -/
def emptyFindingsReq : CreateFindingsRequest := { scanId := "s6", findings := [] }

/-! ## Helper lemmas about the repository's List -/

theorem list_no_paging (f : ScanFilter) (st : Store) (hoff : f.offset = 0)
    (hlim : f.limit = 0) :
    ScanRepository.list f st = sortByCreatedDesc (st.scans.filter (scanMatches f)) := by
  unfold ScanRepository.list
  rw [hoff, hlim]
  simp

theorem mem_of_mem_list {f : ScanFilter} {st : Store} {s : Scan}
    (h : s ∈ ScanRepository.list f st) : s ∈ st.scans ∧ scanMatches f s = true := by
  have h2 : s ∈ sortByCreatedDesc (st.scans.filter (scanMatches f)) := by
    simp only [ScanRepository.list] at h
    by_cases hl : 0 < f.limit <;> by_cases ho : 0 < f.offset <;> simp [hl, ho] at h
    · exact List.drop_subset _ _ (List.take_subset _ _ h)
    · exact List.take_subset _ _ h
    · exact List.drop_subset _ _ h
    · exact h
  have h3 : s ∈ st.scans.filter (scanMatches f) :=
    (List.perm_insertionSort createdDesc _).mem_iff.mp h2
  exact ⟨(List.mem_filter.mp h3).1, (List.mem_filter.mp h3).2⟩

theorem status_of_mem_list {q : ScanStatus} {st : Store} {s : Scan}
    (h : s ∈ ScanRepository.list { status := some q } st) :
    s ∈ st.scans ∧ s.status = q := by
  obtain ⟨hmem, hmatch⟩ := mem_of_mem_list h
  refine ⟨hmem, ?_⟩
  simpa [scanMatches, beq_iff_eq] using hmatch

/-! ## C1 — DeleteScan and the scan row -/

/-- C1 counterexample: on a store holding the completed scan `s1` and one of
its findings, `DeleteScan` succeeds, all findings for `s1` are gone, but the
scan row `s1` is still present — the repository `Delete` is a soft delete,
so the claim that no scan row with that id exists afterwards is false. -/
theorem deleteScan_row_remains_cex :
    (ScanServiceServer.deleteScan idParse 9 true true ⟨"s1"⟩ deleteStore).map
        (fun st => (st.scans.map Scan.id, st.findings.length))
      = Except.ok (["s1"], 0) := rfl

/-- C1 (amended): after a successful `DeleteScan`, no finding with the
scan's id remains, and the scan row still exists but with its status set to
cancelled (the repository `Delete` is a soft delete). -/
theorem deleteScan_soft_delete (parse : String → Option UUID) (now : Time)
    (dOk aOk : Bool) (req : DeleteScanRequest) (st : Store) (sid : UUID) (scan : Scan)
    (hp : parse req.id = some sid) (hg : ScanRepository.get sid st = some scan) :
    ∃ st2, ScanServiceServer.deleteScan parse now dOk aOk req st = .ok st2
      ∧ (∀ f ∈ st2.findings, ¬ f.scanId = sid)
      ∧ (∀ row ∈ st2.scans, row.id = sid → row.status = ScanStatus.cancelled)
      ∧ (∃ row ∈ st2.scans, row.id = sid) := by
  have hsid : scan.id = sid := by
    have h := List.find?_some hg
    simpa [beq_iff_eq] using h
  have hmem : scan ∈ st.scans := List.mem_of_find?_eq_some hg
  have hany : st.scans.any (fun r => r.id == scan.id) = true :=
    List.any_eq_true.mpr ⟨scan, hmem, by simp⟩
  have hres : ScanServiceServer.deleteScan parse now dOk aOk req st
      = .ok { scans := st.scans.map (fun r =>
                if r.id == scan.id then
                  { r with status := ScanStatus.cancelled, updatedAt := now }
                else r)
              findings := st.findings.filter (fun f => !(f.scanId == scan.id)) } := by
    simp [ScanServiceServer.deleteScan, hp, hg, ScanRepository.delete,
      FindingRepository.deleteByScanId, hany]
  refine ⟨_, hres, ?_, ?_, ?_⟩
  · intro f hf
    have h2 := (List.mem_filter.mp hf).2
    rw [← hsid]
    simpa using h2
  · intro row hrow hid
    obtain ⟨r, hr, hmap⟩ := List.mem_map.mp hrow
    by_cases hcase : r.id == scan.id
    · rw [if_pos hcase] at hmap
      rw [← hmap]
    · rw [if_neg hcase] at hmap
      rw [← hmap] at hid
      exact absurd (hid.trans hsid.symm) (by simpa [beq_iff_eq] using hcase)
  · refine ⟨{ scan with status := ScanStatus.cancelled, updatedAt := now }, ?_, hsid⟩
    have := List.mem_map_of_mem
      (fun r => if r.id == scan.id then
        { r with status := ScanStatus.cancelled, updatedAt := now } else r) hmem
    simpa using this

/-- C1 witness: the amended statement evaluated on the concrete delete
scenario. -/
theorem deleteScan_soft_delete_witness :
    ∃ st2, ScanServiceServer.deleteScan idParse 9 true true ⟨"s1"⟩ deleteStore = .ok st2
      ∧ (∀ f ∈ st2.findings, ¬ f.scanId = "s1")
      ∧ (∀ row ∈ st2.scans, row.id = "s1" → row.status = ScanStatus.cancelled)
      ∧ (∃ row ∈ st2.scans, row.id = "s1") :=
  deleteScan_soft_delete idParse 9 true true ⟨"s1"⟩ deleteStore "s1"
    (mkScan "s1" ScanStatus.completed 1) (by rfl) (by rfl)

/-! ## C2 — cleaner selection and the retention cutoff -/

/-- C2 failing input: at now = 100 with a 90-day retention the cutoff is 10,
yet the completed scan `young` created at time 100 — far inside the
retention window — is selected by the cleaner's selection step, because
`ScanRepository.List` never applies the `CreatedBefore` watermark the
cleaner passes. (The ancient queued scan is correctly not selected.) -/
theorem cleaner_selects_fresh_terminal_scan :
    (Cleaner.selectScans 100 90 retentionStore).map Scan.id = ["young"]
    ∧ retentionStore.scans.map (fun s => (s.id, s.status, s.createdAt))
        = [("young", ScanStatus.completed, 100), ("ancient", ScanStatus.queued, 0)]
    ∧ ¬ ((100 : Int) < 100 - 90) := by
  exact ⟨rfl, rfl, by decide⟩

/-! ## C3 — terminal states and the soft delete -/

/-- C3 counterexample: the repository `Delete` — invoked by `DeleteScan` and
by the cleaner's per-scan teardown — rewrites the completed scan `s3` to
status cancelled, so a core operation does move a scan out of a terminal
state. -/
theorem delete_moves_terminal_scan_cex :
    terminalStore.scans.map (fun s => (s.id, s.status)) = [("s3", ScanStatus.completed)]
    ∧ (ScanRepository.delete 5 "s3" terminalStore).map (fun st => st.scans.map Scan.status)
        = Except.ok [ScanStatus.cancelled] := ⟨rfl, rfl⟩

/-! ## C4 — dispatcher persistence of job fields -/

/-- C4 failing input: dispatching the queued scan `s4` to a job named
`scan-abcd1234` in namespace `cloudscan` persists the job name, the running
status and started-at, but the stored row's job namespace stays NULL —
`ScanRepository.Update`'s SET list omits the `job_namespace` column. -/
theorem dispatch_drops_job_namespace :
    (Dispatcher.dispatchScan 5 fixedCreateJob queuedScan4 dispatchStore).scans.map
        (fun s => (s.jobName, s.jobNamespace, s.status, s.startedAt))
      = [(some "scan-abcd1234", none, ScanStatus.running, some 5)] := rfl

/-! ## C5 — dispatch order -/

/-- C5 counterexample: with two queued scans created at times 1 and 2, the
dispatcher's listing returns creation times [2, 1] — newest first — which is
not ascending, refuting the oldest-first claim. -/
theorem dispatch_order_not_oldest_first_cex :
    (Dispatcher.dispatchOrder orderingStore).map Scan.createdAt = [2, 1]
    ∧ ¬ List.Sorted (fun a b : Time => a ≤ b)
        ((Dispatcher.dispatchOrder orderingStore).map Scan.createdAt) := by
  refine ⟨rfl, ?_⟩
  intro hsort
  have h12 := List.rel_of_sorted_cons hsort 1 (by decide)
  exact absurd h12 (by decide)

/-- C5 (amended): on each tick the dispatcher processes exactly the queued
scans, in descending creation time (newest first) — `ScanRepository.List`
orders by `created_at DESC`. -/
theorem dispatch_order_newest_first (st : Store) :
    List.Sorted createdDesc (Dispatcher.dispatchOrder st)
    ∧ List.Perm (Dispatcher.dispatchOrder st)
        (st.scans.filter (fun s => s.status == ScanStatus.queued)) := by
  have hl : Dispatcher.dispatchOrder st
      = sortByCreatedDesc (st.scans.filter (scanMatches { status := some ScanStatus.queued })) :=
    list_no_paging _ _ rfl rfl
  constructor
  · rw [hl]
    exact List.sorted_insertionSort _ _
  · rw [hl]
    have hfil : st.scans.filter (scanMatches { status := some ScanStatus.queued })
        = st.scans.filter (fun s => s.status == ScanStatus.queued) := by
      apply List.filter_congr
      intro s _
      simp [scanMatches]
    rw [← hfil]
    exact List.perm_insertionSort createdDesc _

/-! ## C6 — sweeper status mapping -/

/-- C6 counterexample: the job status reports one failed pod and carries a
Failed-type condition whose status is `False` with message `boom`; the
sweeper ignores it (it only accepts Failed conditions whose status is
`True`) and, with no logs, stores the default error string instead of
`boom`. -/
theorem sweeper_condition_status_cex :
    Sweeper.processScan 7 (some falseFailedJobStatus) none runningScan6
      = some { runningScan6 with
          status := ScanStatus.failed
          errorMessage := some "Job failed with unknown error"
          completedAt := some 7 }
    ∧ falseFailedJobStatus.conditions.map JobCondition.type = ["Failed"]
    ∧ falseFailedJobStatus.conditions.map JobCondition.message = ["boom"] :=
  ⟨rfl, rfl, rfl⟩

/-- C6 (amended): for a queued-or-running scan with a job name, the sweeper
applies exactly: succeeded > 0 ⇒ completed with completed-at = now;
else failed > 0 ⇒ failed with completed-at = now and the error text of
`Sweeper.failedErrorText` (first condition with type Failed *and status
True*, message or reason; else the logs — whole if ≤ 500 characters, last
500 prefixed `...` otherwise; else the default string); else active > 0 on a
queued scan ⇒ running; in every other case no write. -/
theorem sweeper_status_mapping (now : Time) (js : JobStatus) (logsResult : Option String)
    (scan : Scan) (hname : ¬ stringValue scan.jobName = "") :
    (0 < js.succeeded →
      Sweeper.processScan now (some js) logsResult scan
        = some { scan with status := ScanStatus.completed, completedAt := some now })
    ∧ (js.succeeded ≤ 0 → 0 < js.failed →
      Sweeper.processScan now (some js) logsResult scan
        = some { scan with
            status := ScanStatus.failed
            errorMessage := some (Sweeper.failedErrorText js.conditions logsResult)
            completedAt := some now })
    ∧ (js.succeeded ≤ 0 → js.failed ≤ 0 → 0 < js.active → scan.status = ScanStatus.queued →
      Sweeper.processScan now (some js) logsResult scan
        = some { scan with status := ScanStatus.running })
    ∧ (js.succeeded ≤ 0 → js.failed ≤ 0 → 0 < js.active → scan.status = ScanStatus.running →
      Sweeper.processScan now (some js) logsResult scan = none)
    ∧ (js.succeeded ≤ 0 → js.failed ≤ 0 → js.active ≤ 0 →
      Sweeper.processScan now (some js) logsResult scan = none) := by
  have hname2 : (stringValue scan.jobName == "") = false := beq_eq_false_iff_ne.mpr hname
  refine ⟨?_, ?_, ?_, ?_, ?_⟩
  · intro hs
    simp [Sweeper.processScan, hname2, hs]
  · intro hs hf
    simp [Sweeper.processScan, hname2, not_lt.mpr hs, hf]
  · intro hs hf ha hq
    simp +decide [Sweeper.processScan, hname2, not_lt.mpr hs, not_lt.mpr hf, ha, hq]
  · intro hs hf ha hr
    simp +decide [Sweeper.processScan, hname2, not_lt.mpr hs, not_lt.mpr hf, ha, hr]
  · intro hs hf ha
    simp [Sweeper.processScan, hname2, not_lt.mpr hs, not_lt.mpr hf, not_lt.mpr ha]

/-- C6 witness: one succeeded pod on the running scan `s6` makes it
completed with completed-at set. -/
theorem sweeper_status_mapping_witness :
    Sweeper.processScan 7 (some succeededJobStatus) none runningScan6
      = some { runningScan6 with status := ScanStatus.completed, completedAt := some 7 } :=
  (sweeper_status_mapping 7 succeededJobStatus none runningScan6 (by decide)).1 (by decide)

/-! ## C7 — CancelScan case analysis -/

/-- C7: `CancelScan` on a cancelled scan is a no-op success; on a completed
or failed scan it fails with `FailedPrecondition` "scan already completed";
on a queued or running scan the result is the same whether or not the
workload cancellation succeeds (the failure is only logged), the call
succeeds, the scan's rows get status cancelled, every other row is
untouched, and `CancelJob` is invoked exactly when the scan carries a
non-empty job name. -/
theorem cancelScan_state_machine (parse : String → Option UUID) (now : Time)
    (cancelJobOk : Bool) (req : CancelScanRequest) (st : Store) (sid : UUID) (scan : Scan)
    (hp : parse req.id = some sid) (hg : ScanRepository.get sid st = some scan) :
    (scan.status = ScanStatus.cancelled →
      ScanServiceServer.cancelScan parse now cancelJobOk req st
        = .ok { store := st, cancelCalls := [] })
    ∧ ((scan.status = ScanStatus.completed ∨ scan.status = ScanStatus.failed) →
      ScanServiceServer.cancelScan parse now cancelJobOk req st
        = .error (.failedPrecondition "scan already completed"))
    ∧ ((scan.status = ScanStatus.queued ∨ scan.status = ScanStatus.running) →
      ScanServiceServer.cancelScan parse now true req st
          = ScanServiceServer.cancelScan parse now false req st
      ∧ ∃ out, ScanServiceServer.cancelScan parse now cancelJobOk req st = .ok out
        ∧ (∀ row ∈ out.store.scans, row.id = sid → row.status = ScanStatus.cancelled)
        ∧ (∀ row ∈ out.store.scans, ¬ row.id = sid → row ∈ st.scans)
        ∧ out.cancelCalls = (match scan.jobName with
            | none => []
            | some name =>
              if name == "" then [] else [(stringValue scan.jobNamespace, name)])) := by
  have hmem : scan ∈ st.scans := List.mem_of_find?_eq_some hg
  have hsid : scan.id = sid := by
    have h := List.find?_some hg
    simpa [beq_iff_eq] using h
  refine ⟨?_, ?_, ?_⟩
  · intro hc
    simp +decide [ScanServiceServer.cancelScan, hp, hg, hc]
  · intro hc
    rcases hc with hc | hc <;> simp +decide [ScanServiceServer.cancelScan, hp, hg, hc]
  · intro hc
    have hany : (st.scans.any (fun r => r.id == sid)) = true :=
      List.any_eq_true.mpr ⟨scan, hmem, by simp [hsid]⟩
    have hres : ∀ ok : Bool, ScanServiceServer.cancelScan parse now ok req st
        = .ok { store := { st with scans := st.scans.map (fun r =>
                  if r.id == sid then { r with status := ScanStatus.cancelled, updatedAt := now }
                  else r) }
                cancelCalls := (match scan.jobName with
                  | none => []
                  | some name =>
                    if name == "" then [] else [(stringValue scan.jobNamespace, name)]) } := by
      intro ok
      rcases hc with hc | hc <;>
        simp +decide [ScanServiceServer.cancelScan, hp, hg, hc,
          ScanRepository.updateStatus, hany]
    refine ⟨(hres true).trans (hres false).symm, ?_⟩
    refine ⟨_, hres cancelJobOk, ?_, ?_, rfl⟩
    · intro row hrow hid
      obtain ⟨r, hr, hmap⟩ := List.mem_map.mp hrow
      by_cases hcase : r.id == sid
      · rw [if_pos hcase] at hmap
        rw [← hmap]
      · rw [if_neg hcase] at hmap
        rw [← hmap] at hid
        exact absurd hid (by simpa [beq_iff_eq] using hcase)
    · intro row hrow hid
      obtain ⟨r, hr, hmap⟩ := List.mem_map.mp hrow
      by_cases hcase : r.id == sid
      · rw [if_pos hcase] at hmap
        rw [← hmap] at hid
        exact absurd (beq_iff_eq.mp hcase) hid
      · rw [if_neg hcase] at hmap
        rw [← hmap]
        exact hr

/-- C7 witness: cancelling the running scan `s6` (with job `scan-deadbeef`
in namespace `cloudscan`) succeeds, marks it cancelled and issues exactly
one `CancelJob` call. -/
theorem cancelScan_state_machine_witness :
    ScanServiceServer.cancelScan idParse 8 true ⟨"s6"⟩ cancelStore
        = ScanServiceServer.cancelScan idParse 8 false ⟨"s6"⟩ cancelStore
    ∧ ∃ out, ScanServiceServer.cancelScan idParse 8 true ⟨"s6"⟩ cancelStore = .ok out
      ∧ (∀ row ∈ out.store.scans, row.id = "s6" → row.status = ScanStatus.cancelled)
      ∧ (∀ row ∈ out.store.scans, ¬ row.id = "s6" → row ∈ cancelStore.scans)
      ∧ out.cancelCalls = (match runningScan6.jobName with
          | none => []
          | some name =>
            if name == "" then [] else [(stringValue runningScan6.jobNamespace, name)]) :=
  (cancelScan_state_machine idParse 8 true ⟨"s6"⟩ cancelStore "s6" runningScan6
    (by rfl) (by rfl)).2.2 (Or.inr rfl)

/-! ## C10 — ListScans ignores page_size -/

/-- C10: two `ListScans` requests differing only in `page_size` produce the
same result — the handler stores `page_size` in the filter's `PageSize`, but
`ScanRepository.List` reads only `Limit` and `Offset`, which the handler
never sets. -/
theorem listScans_pageSize_irrelevant (parse : String → Option UUID)
    (req : ListScansRequest) (n : Int) (st : Store) :
    ScanServiceServer.listScans parse { req with pageSize := n } st
      = ScanServiceServer.listScans parse req st := by
  unfold ScanServiceServer.listScans ScanServiceServer.listScansFilter
  cases hpo : parse req.organizationId <;> cases hpp : parse req.projectId <;>
    by_cases h1 : req.organizationId == "" <;> by_cases h2 : req.projectId == "" <;>
      by_cases h3 : req.status == PbScanStatus.unspecified <;>
        simp [h1, h2, h3, hpo, hpp] <;> rfl

/-! ## C8 — atomic finding batches and the empty batch -/

/-- C8: `CreateBatch` of an empty batch is a no-op success (regardless of
the database); a non-empty batch either inserts every row (with created-at
set) as one statement, or fails leaving the store unchanged — all or
nothing; and `CreateFindings` with an empty batch on an existing scan
succeeds, inserts nothing and reports a zero count. -/
theorem createBatch_atomic_and_empty (now : Time) (dbOk : Bool) (fs : List Finding)
    (st : Store) (parse : String → Option UUID) (genId : Nat → UUID)
    (req : CreateFindingsRequest) (sid : UUID) (scan : Scan)
    (hfs : ¬ fs = []) (hempty : req.findings = []) (hnz : ¬ req.scanId = "")
    (hp : parse req.scanId = some sid) (hg : ScanRepository.get sid st = some scan) :
    FindingRepository.createBatch now dbOk [] st = .ok st
    ∧ (dbOk = true → FindingRepository.createBatch now dbOk fs st
        = .ok { st with
            findings := st.findings ++ fs.map (fun f => { f with createdAt := now }) })
    ∧ (dbOk = false → FindingRepository.createBatch now dbOk fs st = .error .execFailed)
    ∧ ScanServiceServer.createFindings parse genId now dbOk req st = .ok (st, 0) := by
  have hlen : (fs.length == 0) = false := by
    refine beq_eq_false_iff_ne.mpr ?_
    intro hzero
    exact hfs (List.length_eq_zero.mp hzero)
  have hnz2 : (req.scanId == "") = false := beq_eq_false_iff_ne.mpr hnz
  refine ⟨rfl, ?_, ?_, ?_⟩
  · intro hdb
    simp [FindingRepository.createBatch, hlen, hdb]
  · intro hdb
    simp [FindingRepository.createBatch, hlen, hdb]
  · simp [ScanServiceServer.createFindings, hnz2, hp, hg, hempty,
      FindingRepository.createBatch]

/-- C8 witness: the batch `[finding1]` on the one-scan store inserts exactly
that row on success, and the empty `CreateFindings` request for scan `s6`
succeeds with count 0. -/
theorem createBatch_atomic_and_empty_witness :
    FindingRepository.createBatch 4 true [] batchStore = .ok batchStore
    ∧ (true = true → FindingRepository.createBatch 4 true [finding1] batchStore
        = .ok { batchStore with
            findings := batchStore.findings
              ++ [finding1].map (fun f => { f with createdAt := 4 }) })
    ∧ (true = false → FindingRepository.createBatch 4 true [finding1] batchStore
        = .error .execFailed)
    ∧ ScanServiceServer.createFindings idParse seqId 4 true emptyFindingsReq batchStore
        = .ok (batchStore, 0) :=
  createBatch_atomic_and_empty 4 true [finding1] batchStore idParse seqId
    emptyFindingsReq "s6" runningScan6 (by decide) rfl (by decide) (by rfl) (by rfl)

/-! ## C9 — CreateScan validation and the queued status -/

/-- C9: `CreateScan` returns `InvalidArgument` whenever the organization id
is empty, the project id is empty, the scan-type list is empty, or both the
git URL and the source-artifact id are absent; and a request passing all
validations (with parseable ids and a fresh scan id) is persisted and
returned with status queued. -/
theorem createScan_validates_and_queues (parse : String → Option UUID) (newId : UUID)
    (now : Time) (req : CreateScanRequest) (st : Store) (orgId projId : UUID) :
    ((req.organizationId = "" ∨ req.projectId = "" ∨ req.scanTypes = []
        ∨ (req.gitUrl = "" ∧ req.sourceArtifactId = "")) →
      ∃ msg, ScanServiceServer.createScan parse newId now req st
        = .error (.invalidArgument msg))
    ∧ (¬ req.organizationId = "" → ¬ req.projectId = "" → ¬ req.scanTypes = []
        → ¬ (req.gitUrl = "" ∧ req.sourceArtifactId = "")
        → parse req.organizationId = some orgId
        → parse req.projectId = some projId
        → (req.userId = "" ∨ ∃ u, parse req.userId = some u)
        → (∀ s ∈ st.scans, ¬ s.id = newId)
        → ∃ st2 scan, ScanServiceServer.createScan parse newId now req st = .ok (st2, scan)
          ∧ scan.status = ScanStatus.queued ∧ scan ∈ st2.scans) := by
  constructor
  · intro hbad
    by_cases h1 : req.organizationId == ""
    · exact ⟨"organization_id is required", by simp [ScanServiceServer.createScan, h1]⟩
    by_cases h2 : req.projectId == ""
    · exact ⟨"project_id is required", by simp [ScanServiceServer.createScan, h1, h2]⟩
    by_cases h3 : req.scanTypes.length == 0
    · exact ⟨"at least one scan_type is required",
        by simp [ScanServiceServer.createScan, h1, h2, h3]⟩
    by_cases h4 : req.gitUrl == "" && req.sourceArtifactId == ""
    · exact ⟨"either git_url or source_artifact_id is required",
        by simp [ScanServiceServer.createScan, h1, h2, h3, h4]⟩
    exfalso
    rcases hbad with h | h | h | ⟨ha, hb⟩
    · exact h1 (by simp [h])
    · exact h2 (by simp [h])
    · exact h3 (by simp [h])
    · exact h4 (by simp [ha, hb])
  · intro ho hpj hst hsrc hporg hppj huser hfresh
    have h1 : (req.organizationId == "") = false := beq_eq_false_iff_ne.mpr ho
    have h2 : (req.projectId == "") = false := beq_eq_false_iff_ne.mpr hpj
    have h3 : (req.scanTypes.length == 0) = false := by
      refine beq_eq_false_iff_ne.mpr ?_
      intro hzero
      exact hst (List.length_eq_zero.mp hzero)
    have h4 : (req.gitUrl == "" && req.sourceArtifactId == "") = false := by
      rw [Bool.eq_false_iff]
      intro hb
      rw [Bool.and_eq_true] at hb
      exact hsrc ⟨beq_iff_eq.mp hb.1, beq_iff_eq.mp hb.2⟩
    have hanyf : (st.scans.any (fun r => r.id == newId)) = false := by
      rw [Bool.eq_false_iff]
      intro hb
      obtain ⟨s, hs, hbeq⟩ := List.any_eq_true.mp hb
      exact hfresh s hs (beq_iff_eq.mp hbeq)
    by_cases hui : req.userId == ""
    · refine ⟨{ st with scans := st.scans
          ++ [ScanServiceServer.newScanOf newId now req orgId projId none] },
        ScanServiceServer.newScanOf newId now req orgId projId none, ?_, rfl, by simp⟩
      simp [ScanServiceServer.createScan, h1, h2, h3, h4, hporg, hppj, hui,
        ScanRepository.create, hanyf, hfresh, ScanServiceServer.newScanOf]
    · have hu : ∃ u, parse req.userId = some u := by
        rcases huser with huser | huser
        · exact absurd (beq_iff_eq.mpr huser) (by simpa using hui)
        · exact huser
      obtain ⟨u, hu⟩ := hu
      refine ⟨{ st with scans := st.scans
          ++ [ScanServiceServer.newScanOf newId now req orgId projId (some u)] },
        ScanServiceServer.newScanOf newId now req orgId projId (some u), ?_, rfl, by simp⟩
      simp [ScanServiceServer.createScan, h1, h2, h3, h4, hporg, hppj, hui, hu,
        ScanRepository.create, hanyf, hfresh, ScanServiceServer.newScanOf]

/-- C9 witness: the valid fixture request on the empty store is accepted and
yields a queued, persisted scan. -/
theorem createScan_validates_and_queues_witness :
    ∃ st2 scan,
      ScanServiceServer.createScan idParse "scan-new" 3 validCreateReq emptyStore
        = .ok (st2, scan)
      ∧ scan.status = ScanStatus.queued ∧ scan ∈ st2.scans :=
  (createScan_validates_and_queues idParse "scan-new" 3 validCreateReq emptyStore
      "org-1" "proj-1").2
    (by decide) (by decide) (by decide) (by decide) (by rfl) (by rfl)
    (Or.inl rfl) (by simp [emptyStore])

/-! ## C3 (amended) — the sweeper never touches a terminal scan -/

theorem processScan_id {now : Time} {js : Option JobStatus} {lg : Option String}
    {scan scan2 : Scan} (h : Sweeper.processScan now js lg scan = some scan2) :
    scan2.id = scan.id := by
  unfold Sweeper.processScan at h
  repeat' split at h
  all_goals first
    | exact Option.noConfusion h
    | (injection h with h2; rw [← h2])

theorem filter_untouched_of_ne (i target : UUID) (g : Scan → Scan)
    (hg : ∀ r, (g r).id = r.id) (hne : ¬ target = i) (l : List Scan) :
    (l.map (fun r => if r.id == target then g r else r)).filter (fun r => r.id == i)
      = l.filter (fun r => r.id == i) := by
  induction l with
  | nil => rfl
  | cons r l ih =>
    rw [List.map_cons]
    by_cases hr : r.id = target
    · rw [if_pos (beq_iff_eq.mpr hr)]
      have h2 : ¬ ((g r).id == i) = true := by
        rw [hg r, hr]
        exact fun hcon => hne (beq_iff_eq.mp hcon)
      have h3 : ¬ (r.id == i) = true := by
        rw [hr]
        exact fun hcon => hne (beq_iff_eq.mp hcon)
      rw [@List.filter_cons_of_neg Scan (fun s => s.id == i) (g r) _ h2,
        @List.filter_cons_of_neg Scan (fun s => s.id == i) r _ h3, ih]
    · rw [if_neg (fun hcon => hr (beq_iff_eq.mp hcon))]
      by_cases hri : (r.id == i) = true
      · rw [@List.filter_cons_of_pos Scan (fun s => s.id == i) r _ hri,
          @List.filter_cons_of_pos Scan (fun s => s.id == i) r _ hri, ih]
      · rw [@List.filter_cons_of_neg Scan (fun s => s.id == i) r _ hri,
          @List.filter_cons_of_neg Scan (fun s => s.id == i) r _ hri, ih]

theorem stepScan_rowsWithId (now : Time) (gJS : Scan → Option JobStatus)
    (gL : Scan → Option String) (i : UUID) (st : Store) (scan : Scan)
    (hne : ¬ scan.id = i) :
    rowsWithId i (Sweeper.stepScan now gJS gL st scan) = rowsWithId i st := by
  cases hp2 : Sweeper.processScan now (gJS scan) (gL scan) scan with
  | none => simp [Sweeper.stepScan, hp2]
  | some scan2 =>
    have hid : scan2.id = scan.id := processScan_id hp2
    have hni : ¬ scan2.id = i := by rw [hid]; exact hne
    by_cases hex : (st.scans.any (fun r => r.id == scan2.id)) = true
    · simp only [Sweeper.stepScan, hp2, ScanRepository.update, hex, if_true]
      unfold rowsWithId
      exact filter_untouched_of_ne i scan2.id (ScanRepository.applyScanUpdate now scan2)
        (fun r => rfl) hni st.scans
    · rw [Bool.not_eq_true] at hex
      simp [Sweeper.stepScan, hp2, ScanRepository.update, hex]

theorem foldl_stepScan_rowsWithId (now : Time) (gJS : Scan → Option JobStatus)
    (gL : Scan → Option String) (i : UUID) (l : List Scan)
    (hl : ∀ t ∈ l, ¬ t.id = i) (acc : Store) :
    rowsWithId i (l.foldl (Sweeper.stepScan now gJS gL) acc) = rowsWithId i acc := by
  induction l generalizing acc with
  | nil => rfl
  | cons t ts ih =>
    rw [List.foldl_cons, ih (fun x hx => hl x (List.mem_cons_of_mem _ hx)) _]
    exact stepScan_rowsWithId now gJS gL i acc t (hl t (List.mem_cons_self _ _))

/-- C3 (amended): a sweep cycle never touches the rows of a scan id all of
whose rows are terminal — the sweeper only selects queued and running scans,
and every write it performs targets one of those. (The repository `Delete`,
by contrast, moves even completed/failed scans to cancelled, as the
counterexample shows, so terminal absorption holds for the background
sweeper but not for every core operation.) -/
theorem sweeper_preserves_terminal_scans (now : Time) (gJS : Scan → Option JobStatus)
    (gL : Scan → Option String) (st : Store) (i : UUID)
    (hterm : ∀ s ∈ st.scans, s.id = i → s.status.isTerminal = true) :
    rowsWithId i (Sweeper.sweep now gJS gL st) = rowsWithId i st := by
  have hall : ∀ t ∈ ScanRepository.list { status := some ScanStatus.queued } st
      ++ ScanRepository.list { status := some ScanStatus.running } st, ¬ t.id = i := by
    intro t ht hti
    rcases List.mem_append.mp ht with h | h
    · obtain ⟨hmem, hstat⟩ := status_of_mem_list h
      have hterm2 := hterm t hmem hti
      rw [hstat] at hterm2
      exact absurd hterm2 (by decide)
    · obtain ⟨hmem, hstat⟩ := status_of_mem_list h
      have hterm2 := hterm t hmem hti
      rw [hstat] at hterm2
      exact absurd hterm2 (by decide)
  exact foldl_stepScan_rowsWithId now gJS gL i _ hall st

/-- C3 witness: sweeping the store holding the completed scan `s3` leaves
its rows untouched. -/
theorem sweeper_preserves_terminal_scans_witness :
    rowsWithId "s3" (Sweeper.sweep 7 (fun _ => none) (fun _ => none) terminalStore)
      = rowsWithId "s3" terminalStore :=
  sweeper_preserves_terminal_scans 7 (fun _ => none) (fun _ => none) terminalStore "s3"
    (by decide)

end CloudScan
